import Mathlib

/-!
Shallow embedding of the ScrapCo customer-backend dispatcher
(src/services/dispatcher.js, src/routes/vendor.js, src/unnamed/part_002,
src/unnamed/part_007) and proofs about its specification claims.

Modelling conventions:
* Timestamps are naturals (milliseconds); `plusMinutesIso(2)` becomes
  `now + offerWindowMs`.
* The persistent pickups row is `PickupRow`; every Supabase conditional
  update is embedded as a guarded functional update whose guard mirrors
  the WHERE clause of the source statement.
* Each engine operation is modelled sequentially: the fetch and the
  following conditional update of one operation are not interleaved with
  other operations (the store serialises them in the real system).
* JavaScript numeric coercion of `null`/`undefined` is modelled by
  `JsNum` and `toNumber`.
* `updates` counts UPDATE statements issued against the pickups table;
  `reserveSeen` records the value of `assigned_vendor_ref` visible at
  the moment of each reserve_offer attempt.
-/

namespace ScrapCo

/-- Pickup status enum, from the pickup_status Postgres enum and the
status... helper functions in src/services/dispatcher.js. -/
inductive Status where
  | REQUESTED
  | FINDING_VENDOR
  | ASSIGNED
  | ON_THE_WAY
  | COMPLETED
  | CANCELLED
  | NO_VENDOR_AVAILABLE
deriving DecidableEq, Repr

/-- A JavaScript numeric-ish value as stored in a row field: a number,
SQL NULL (JSON null), or an absent field (undefined). -/
inductive JsNum where
  | undef
  | null
  | num (x : ℝ)

/-- Models JavaScript Number(x) followed by a finiteness check:
Number(undefined) = NaN (not finite, `none`), Number(null) = 0,
Number(x) = x for a finite number. -/
noncomputable def toNumber : JsNum → Option ℝ
  | .undef => none
  | .null => some 0
  | .num x => some x

/-- The persistent pickups row (columns used by the dispatcher). -/
structure PickupRow where
  status : Status
  assignedVendorRef : Option String
  assignmentExpiresAt : Option Nat
  cancelledAt : Option Nat
  completedAt : Option Nat
  customerId : String
  latitude : JsNum
  longitude : JsNum

/-- A vendor_backends row as consumed by the dispatcher: the
vendor_id/vendor_ref alias chain collapsed to one identifier, the
last_latitude/latitude alias chain collapsed to one optional coordinate
(a missing coordinate falls through `|| 0` to zero), and the offer URL. -/
structure Vendor where
  vendorId : String
  lastLatitude : Option ℝ
  lastLongitude : Option ℝ
  offerUrl : Option String

/-- In-memory dispatch state for one pickup (dispatchState map entry):
candidate list, current index, session rejection set. -/
structure DispatchMem where
  candidates : List Vendor
  index : Nat
  rejected : List String

/-- Result of running an engine operation: final row, resulting
in-memory state (`none` when deleted or absent), whether a timeout timer
was armed, how many pickups UPDATE statements were issued, and the
assigned_vendor_ref value observed at each reserve_offer attempt. -/
structure TryResult where
  row : PickupRow
  mem : Option DispatchMem
  timerArmed : Bool
  updates : Nat
  reserveSeen : List (Option String)

/-- isTerminalStatus from src/services/dispatcher.js (line 16): note it
includes ASSIGNED and ON_THE_WAY, not only COMPLETED and CANCELLED. -/
def isTerminalStatus (s : Status) : Bool :=
  s = .ASSIGNED ∨ s = .ON_THE_WAY ∨ s = .CANCELLED ∨ s = .COMPLETED

/-- Offer validity window: plusMinutesIso(2) in milliseconds. -/
def offerWindowMs : Nat := 2 * 60 * 1000

/-- The clearExpiredOfferIfAny conditional update inside tryOfferNext
(dispatcher.js lines 363-372): clear the offer fields iff status is
FINDING_VENDOR and assignment_expires_at is non-null and strictly in
the past. -/
def clearExpiredOfferIfAny (now : Nat) (row : PickupRow) : PickupRow :=
  match row.assignmentExpiresAt with
  | some t =>
      if row.status = .FINDING_VENDOR ∧ t < now then
        { row with assignedVendorRef := none, assignmentExpiresAt := none }
      else row
  | none => row

/-- The reserve_offer conditional update (dispatcher.js lines 392-403):
set the offer fields iff status is FINDING_VENDOR and
assigned_vendor_ref IS NULL; returns the updated row or `none`
(zero rows matched). -/
def reserveOffer (vid : String) (expiresAt : Nat) (row : PickupRow) : Option PickupRow :=
  if row.status = .FINDING_VENDOR ∧ row.assignedVendorRef = none then
    some { row with assignedVendorRef := some vid,
                    assignmentExpiresAt := some expiresAt,
                    status := .FINDING_VENDOR }
  else none

/-- The give-up update after candidate exhaustion (dispatcher.js lines
460-463): unconditional on the row id, no status guard. -/
def giveUpUpdate (row : PickupRow) : PickupRow :=
  { row with status := .NO_VENDOR_AVAILABLE,
             assignedVendorRef := none, assignmentExpiresAt := none }

/-- The active-offer test used by dispatchPickup (lines 283-288) and by
the offered-null branch of tryOfferNext (lines 417-422): status
FINDING_VENDOR, non-null assigned_vendor_ref, unexpired deadline. -/
def hasActiveOffer (now : Nat) (row : PickupRow) : Bool :=
  decide (row.status = .FINDING_VENDOR) && row.assignedVendorRef.isSome &&
    (match row.assignmentExpiresAt with
     | some t => decide (now < t)
     | none => false)

/-- The while loop of tryOfferNext (dispatcher.js lines 374-465),
parameterised by the outcome of sendOfferToVendor (`sendOk`).  `fuel` is
an upper bound on the remaining iterations; callers pass
`cands.length - index`, which is exact because every iteration
increments `index`, so the fuel-zero case inside the loop is
unreachable and mirrors the exhaustion branch. -/
def tryOfferLoop (sendOk : Vendor → Bool) (now : Nat) (cands : List Vendor)
    (rejected : List String) :
    Nat → Nat → PickupRow → Nat → List (Option String) → TryResult
  | fuel, index, row, updates, seen =>
    if h : index < cands.length then
      match fuel with
      | 0 => ⟨giveUpUpdate row, none, false, updates + 1, seen⟩
      | fuel + 1 =>
        let v := cands.get ⟨index, h⟩
        if v.vendorId ∈ rejected then
          tryOfferLoop sendOk now cands rejected fuel (index + 1) row updates seen
        else
          let row1 := clearExpiredOfferIfAny now row
          let seen1 := seen ++ [row1.assignedVendorRef]
          match reserveOffer v.vendorId (now + offerWindowMs) row1 with
          | some row2 =>
              if sendOk v then
                ⟨row2, some ⟨cands, index, rejected⟩, true, updates + 2, seen1⟩
              else
                tryOfferLoop sendOk now cands rejected fuel (index + 1) row2
                  (updates + 2) seen1
          | none =>
              if isTerminalStatus row1.status then
                ⟨row1, none, false, updates + 2, seen1⟩
              else if hasActiveOffer now row1 then
                ⟨row1, some ⟨cands, index, rejected⟩, false, updates + 2, seen1⟩
              else
                tryOfferLoop sendOk now cands rejected fuel (index + 1) row1
                  (updates + 2) seen1
    else
      ⟨giveUpUpdate row, none, false, updates + 1, seen⟩

/-- tryOfferNext (dispatcher.js line 358): returns immediately when the
in-memory state is missing, otherwise runs the candidate loop from the
current index. -/
def tryOfferNext (sendOk : Vendor → Bool) (now : Nat) (row : PickupRow)
    (mem : Option DispatchMem) : TryResult :=
  match mem with
  | none => ⟨row, none, false, 0, []⟩
  | some m =>
      tryOfferLoop sendOk now m.candidates m.rejected
        (m.candidates.length - m.index) m.index row 0 []

/-! ### Ranking (haversine distance, dispatcher.js lines 143-151 and 316-327) -/

/-- Degree-to-radian conversion, toRad inside haversineDistanceKm. -/
noncomputable def toRad (v : ℝ) : ℝ := v * Real.pi / 180

/-- JavaScript Math.atan2(y, x). -/
noncomputable def atan2 (y x : ℝ) : ℝ :=
  if 0 < x then Real.arctan (y / x)
  else if x < 0 then
    (if 0 ≤ y then Real.arctan (y / x) + Real.pi
     else Real.arctan (y / x) - Real.pi)
  else if 0 < y then Real.pi / 2
  else if y < 0 then -(Real.pi / 2)
  else 0

/-- haversineDistanceKm from dispatcher.js lines 143-151 (R = 6371 km). -/
noncomputable def haversineDistanceKm (lat1 lon1 lat2 lon2 : ℝ) : ℝ :=
  let dLat := toRad (lat2 - lat1)
  let dLon := toRad (lon2 - lon1)
  let a := Real.sin (dLat / 2) ^ 2 +
    Real.cos (toRad lat1) * Real.cos (toRad lat2) * Real.sin (dLon / 2) ^ 2
  let c := 2 * atan2 (Real.sqrt a) (Real.sqrt (1 - a))
  6371 * c

/-- Pickup coordinate extraction (dispatcher.js lines 317-318):
`Number(pickup.latitude) || Number(pickup.lat) || null`.  A zero
coordinate is falsy and the alias columns are absent, so the chain
yields null; so do SQL NULL (Number(null) = 0, falsy) and a missing
column (NaN, falsy). -/
noncomputable def pickupCoordOf : JsNum → Option ℝ
  | .num x => if x = 0 then none else some x
  | .null => none
  | .undef => none

/-- Vendor coordinate extraction (dispatcher.js lines 322-323):
`Number(v.last_latitude || v.latitude || v.lat || 0)` — a missing
coordinate falls through to 0. -/
def vendorCoordOf : Option ℝ → ℝ
  | some x => x
  | none => 0

/-- Number.MAX_SAFE_INTEGER, the sentinel distance used when the pickup
has no usable coordinates (dispatcher.js line 324). -/
noncomputable def maxSafeInteger : ℝ := 9007199254740991

/-- The per-vendor distance of the ranking map (dispatcher.js lines
320-326): haversine distance when both pickup coordinates are usable,
otherwise the sentinel. -/
noncomputable def vendorDistanceKm (px py : Option ℝ) (v : Vendor) : ℝ :=
  match px, py with
  | some a, some b =>
      haversineDistanceKm a b (vendorCoordOf v.lastLatitude) (vendorCoordOf v.lastLongitude)
  | _, _ => maxSafeInteger

/-- The ranking comparator: ascending by distanceKm. -/
noncomputable def distLE (a b : Vendor × ℝ) : Prop := a.2 ≤ b.2

noncomputable instance : DecidableRel distLE := fun a b => Real.decidableLE a.2 b.2

/-- The map-and-stable-sort of dispatchPickup (lines 320-327): JavaScript
Array.prototype.sort with a numeric comparator is a stable ascending
sort, embedded as insertion sort. -/
noncomputable def rankVendors (pLat pLng : JsNum) (vendors : List Vendor) : List Vendor :=
  let px := pickupCoordOf pLat
  let py := pickupCoordOf pLng
  (List.insertionSort distLE (vendors.map fun v => (v, vendorDistanceKm px py v))).map
    Prod.fst

/-! ### dispatchPickup and the callback operations -/

/-- The begin-finding conditional update (dispatcher.js lines 296-300):
set status to FINDING_VENDOR iff the current status is REQUESTED,
NO_VENDOR_AVAILABLE, or FINDING_VENDOR. -/
def beginFinding (row : PickupRow) : PickupRow :=
  if row.status = .REQUESTED ∨ row.status = .NO_VENDOR_AVAILABLE ∨
      row.status = .FINDING_VENDOR then
    { row with status := .FINDING_VENDOR }
  else row

/-- Adds earlier UPDATE statements to the tally of a later result. -/
def TryResult.addUpdates (n : Nat) (r : TryResult) : TryResult :=
  { r with updates := r.updates + n }

/-- dispatchPickup (dispatcher.js lines 264-356), sequential semantics.
`vendors` is the vendor_backends snapshot, `skipRefs` the callers skip
list, `persisted` the persisted rejection set, `sendOk` the outcome of
sendOfferToVendor per vendor. -/
noncomputable def dispatchPickup (vendors : List Vendor)
    (skipRefs persisted : List String) (sendOk : Vendor → Bool) (now : Nat)
    (row : PickupRow) (mem : Option DispatchMem) : TryResult :=
  if isTerminalStatus row.status then ⟨row, mem, false, 0, []⟩
  else if hasActiveOffer now row then ⟨row, mem, false, 0, []⟩
  else
    let row1 := beginFinding row
    if vendors.isEmpty then
      ⟨{ row1 with status := .NO_VENDOR_AVAILABLE }, mem, false, 2, []⟩
    else
      let skips := skipRefs ++ persisted
      let candidates := (rankVendors row.latitude row.longitude vendors).filter
        fun v => ¬ skips.contains v.vendorId
      (tryOfferLoop sendOk now candidates [] candidates.length 0 row1 0
        []).addUpdates 1

/-- The timeout clear (dispatcher.js lines 489-498): clear the offer
fields iff status is FINDING_VENDOR, assigned_vendor_ref equals the
offered vendor, and the non-null deadline is in the past. -/
def clearTimedOutOffer (offeredRef : String) (now : Nat) (row : PickupRow) : PickupRow :=
  if decide (row.status = .FINDING_VENDOR) &&
      decide (row.assignedVendorRef = some offeredRef) &&
      (match row.assignmentExpiresAt with
       | some t => decide (t < now)
       | none => false) then
    { row with assignedVendorRef := none, assignmentExpiresAt := none }
  else row

/-- handleOfferTimeout (dispatcher.js lines 467-518).  `offeredRef` is
vendorIdOf of the vendor the timer was armed for. -/
noncomputable def handleOfferTimeout (vendors : List Vendor)
    (persisted : List String) (sendOk : Vendor → Bool) (now : Nat)
    (offeredRef : String) (row : PickupRow) (mem : Option DispatchMem) : TryResult :=
  if row.status = .ASSIGNED ∨ row.status = .ON_THE_WAY then
    ⟨row, none, false, 0, []⟩
  else if row.status = .CANCELLED ∨ row.status = .COMPLETED then
    ⟨row, none, false, 0, []⟩
  else if (match row.assignmentExpiresAt with
           | some t => decide (now < t)
           | none => false) then
    ⟨row, mem, false, 0, []⟩
  else
    let row1 := clearTimedOutOffer offeredRef now row
    match mem with
    | some m =>
        (tryOfferLoop sendOk now m.candidates m.rejected
          (m.candidates.length - (m.index + 1)) (m.index + 1) row1 0
          []).addUpdates 1
    | none =>
        -- restart path: the skip list uses the assigned_vendor_ref read
        -- BEFORE the clear (the stale `pickup` object in the source)
        match row.assignedVendorRef with
        | some ref =>
            (dispatchPickup vendors [ref] persisted sendOk now row1 none).addUpdates 1
        | none =>
            (dispatchPickup vendors [] persisted sendOk now row1 none).addUpdates 1

/-- Result of handleVendorRejection: whether the clearing CAS matched
(the source returns null when it did not), plus the engine result. -/
structure RejectionOutcome where
  cleared : Bool
  result : TryResult

/-- handleVendorRejection (dispatcher.js lines 589-637).  The
best-effort rejection recording touches a different table and is not
part of the pickups row state. -/
noncomputable def handleVendorRejection (vendors : List Vendor)
    (persisted : List String) (sendOk : Vendor → Bool) (now : Nat)
    (vendorRef : String) (row : PickupRow) (mem : Option DispatchMem) :
    RejectionOutcome :=
  if row.status = .FINDING_VENDOR ∧ row.assignedVendorRef = some vendorRef then
    let row1 := { row with assignedVendorRef := none,
                           assignmentExpiresAt := none,
                           status := .FINDING_VENDOR }
    match mem with
    | none =>
        ⟨true, (dispatchPickup vendors [vendorRef] persisted sendOk now row1
          none).addUpdates 1⟩
    | some m =>
        let m1 : DispatchMem := { m with rejected := m.rejected ++ [vendorRef] }
        let curRef := match m1.candidates.get? m1.index with
          | some v => v.vendorId
          | none => "unknown"
        if curRef ≠ vendorRef then
          ⟨true, (tryOfferLoop sendOk now m1.candidates m1.rejected
            (m1.candidates.length - m1.index) m1.index row1 0 []).addUpdates 1⟩
        else
          ⟨true, (tryOfferLoop sendOk now m1.candidates m1.rejected
            (m1.candidates.length - (m1.index + 1)) (m1.index + 1) row1 0
            []).addUpdates 1⟩
  else ⟨false, ⟨row, mem, false, 1, []⟩⟩

/-- confirmVendorAcceptance (dispatcher.js lines 520-549): atomic accept
iff this vendor is currently offered, status is FINDING_VENDOR, and the
non-null deadline has not passed (`gte(assignment_expires_at, now)`; a
NULL deadline matches nothing).  Returns the updated row or `none`;
deletes the in-memory state only on success. -/
def confirmVendorAcceptance (vendorRef : String) (now : Nat) (row : PickupRow)
    (mem : Option DispatchMem) : Option PickupRow × PickupRow × Option DispatchMem :=
  if decide (row.assignedVendorRef = some vendorRef) &&
      decide (row.status = .FINDING_VENDOR) &&
      (match row.assignmentExpiresAt with
       | some t => decide (now ≤ t)
       | none => false) then
    let row1 := { row with status := .ASSIGNED,
                           assignedVendorRef := some vendorRef,
                           assignmentExpiresAt := none }
    (some row1, row1, none)
  else (none, row, mem)

/-! ### Vendor callback routes (src/routes/vendor.js), customer RPCs
(src/unnamed/part_002) and customer routes (src/unnamed/part_007) -/

/-- POST /api/vendor/accept (vendor.js lines 12-42), after signature and
field validation: 409 when confirmVendorAcceptance returns null. -/
def acceptRoute (vendorRef : String) (now : Nat) (row : PickupRow)
    (mem : Option DispatchMem) : Nat × PickupRow × Option DispatchMem :=
  match confirmVendorAcceptance vendorRef now row mem with
  | (none, row1, mem1) => (409, row1, mem1)
  | (some _, row1, mem1) => (200, row1, mem1)

/-- POST /api/vendor/reject (vendor.js lines 180-205), after signature
and field validation: the handler result (even null, meaning a late or
mismatched reject) is wrapped in res.json, an HTTP 200 response. -/
noncomputable def rejectRoute (vendors : List Vendor) (persisted : List String)
    (sendOk : Vendor → Bool) (now : Nat) (vendorRef : String) (row : PickupRow)
    (mem : Option DispatchMem) : Nat × TryResult :=
  let o := handleVendorRejection vendors persisted sendOk now vendorRef row mem
  (200, o.result)

/-- POST /api/vendor/on-the-way (vendor.js lines 209-265): conditional
update to ON_THE_WAY iff assigned to this vendor and status is ASSIGNED
or ON_THE_WAY; zero rows matched gives 409. -/
def onTheWayRoute (vendorRef : String) (row : PickupRow) : Nat × PickupRow :=
  if row.assignedVendorRef = some vendorRef ∧
      (row.status = .ASSIGNED ∨ row.status = .ON_THE_WAY) then
    (200, { row with status := .ON_THE_WAY })
  else (409, row)

/-- POST /api/vendor/pickup-done (vendor.js lines 269-339): conditional
update to COMPLETED iff assigned to this vendor and status is ASSIGNED
or ON_THE_WAY; zero rows matched gives 409; in-memory state dropped on
success. -/
def pickupDoneRoute (vendorRef : String) (now : Nat) (row : PickupRow)
    (mem : Option DispatchMem) : Nat × PickupRow × Option DispatchMem :=
  if row.assignedVendorRef = some vendorRef ∧
      (row.status = .ASSIGNED ∨ row.status = .ON_THE_WAY) then
    (200, { row with status := .COMPLETED, completedAt := some now }, none)
  else (409, row, mem)

/-- The cancel_pickup security-definer RPC (src/unnamed/part_002 lines
19-41): unconditional on CANCELLED rows — the WHERE clause only excludes
COMPLETED, so a repeat cancel matches again and re-stamps cancelled_at
with the current now(). -/
def cancel_pickup (uid : String) (now : Nat) (row : PickupRow) : PickupRow :=
  if row.customerId = uid ∧ row.status ≠ .COMPLETED then
    { row with status := .CANCELLED, cancelledAt := some now,
               assignedVendorRef := none, assignmentExpiresAt := none }
  else row

/-- POST /api/pickups/:id/cancel (src/unnamed/part_007 lines 343-399):
409 only for COMPLETED; otherwise runs cancel_pickup and drops the
in-memory dispatch state. -/
def cancelRoute (uid : String) (now : Nat) (row : PickupRow)
    (mem : Option DispatchMem) : Nat × PickupRow × Option DispatchMem :=
  if row.status = .COMPLETED then (409, row, mem)
  else (200, cancel_pickup uid now row, none)

/-- The find_vendor_again security-definer RPC (src/unnamed/part_002
lines 44-64). -/
def find_vendor_again (uid : String) (row : PickupRow) : PickupRow :=
  if row.customerId = uid ∧ ¬ (row.status = .ASSIGNED ∨ row.status = .ON_THE_WAY ∨
      row.status = .CANCELLED ∨ row.status = .COMPLETED) then
    { row with status := .FINDING_VENDOR, assignedVendorRef := none,
               assignmentExpiresAt := none, cancelledAt := none }
  else row

/-- POST /api/pickups/:id/find-vendor (src/unnamed/part_007 lines
281-337): 409 on terminal statuses, otherwise find_vendor_again, drop
the in-memory state, and restart dispatch. -/
noncomputable def retryRoute (vendors : List Vendor) (persisted : List String)
    (sendOk : Vendor → Bool) (now : Nat) (uid : String) (row : PickupRow)
    (mem : Option DispatchMem) : Nat × TryResult :=
  if row.status = .ASSIGNED ∨ row.status = .ON_THE_WAY ∨
      row.status = .CANCELLED ∨ row.status = .COMPLETED then
    (409, ⟨row, mem, false, 0, []⟩)
  else
    let row1 := find_vendor_again uid row
    (200, (dispatchPickup vendors [] persisted sendOk now row1 none).addUpdates 1)

/-- One sweeper action for one pickup (dispatcher.js lines 551-577): a
row is selected iff status is FINDING_VENDOR with a non-null expired
deadline; the timeout handler is then invoked with the stored
assigned_vendor_ref (vendorIdOf falls back to the string unknown). -/
noncomputable def sweepOne (vendors : List Vendor) (persisted : List String)
    (sendOk : Vendor → Bool) (now : Nat) (row : PickupRow)
    (mem : Option DispatchMem) : TryResult :=
  if decide (row.status = .FINDING_VENDOR) &&
      (match row.assignmentExpiresAt with
       | some t => decide (t < now)
       | none => false) then
    let offeredRef := match row.assignedVendorRef with
      | some s => s
      | none => "unknown"
    handleOfferTimeout vendors persisted sendOk now offeredRef row mem
  else ⟨row, mem, false, 0, []⟩

/-! ### The operations of the system, as one enumeration -/

/-- Every operation that can touch a committed pickup row, with its
external inputs. -/
inductive Op where
  | dispatch (vendors : List Vendor) (skipRefs persisted : List String)
      (sendOk : Vendor → Bool) (now : Nat)
  | timeout (vendors : List Vendor) (persisted : List String)
      (sendOk : Vendor → Bool) (now : Nat) (offeredRef : String)
  | accept (vendorRef : String) (now : Nat)
  | reject (vendors : List Vendor) (persisted : List String)
      (sendOk : Vendor → Bool) (now : Nat) (vendorRef : String)
  | cancelRpc (uid : String) (now : Nat)
  | cancelViaRoute (uid : String) (now : Nat)
  | retryViaRoute (vendors : List Vendor) (persisted : List String)
      (sendOk : Vendor → Bool) (now : Nat) (uid : String)
  | onTheWay (vendorRef : String)
  | pickupDone (vendorRef : String) (now : Nat)
  | sweep (vendors : List Vendor) (persisted : List String)
      (sendOk : Vendor → Bool) (now : Nat)

/-- Applies one operation to a committed row and in-memory state. -/
noncomputable def applyOp (op : Op) (row : PickupRow) (mem : Option DispatchMem) :
    TryResult :=
  match op with
  | .dispatch vendors skipRefs persisted sendOk now =>
      dispatchPickup vendors skipRefs persisted sendOk now row mem
  | .timeout vendors persisted sendOk now offeredRef =>
      handleOfferTimeout vendors persisted sendOk now offeredRef row mem
  | .accept vendorRef now =>
      match confirmVendorAcceptance vendorRef now row mem with
      | (_, row1, mem1) => ⟨row1, mem1, false, 1, []⟩
  | .reject vendors persisted sendOk now vendorRef =>
      (handleVendorRejection vendors persisted sendOk now vendorRef row mem).result
  | .cancelRpc uid now => ⟨cancel_pickup uid now row, mem, false, 1, []⟩
  | .cancelViaRoute uid now =>
      match cancelRoute uid now row mem with
      | (_, row1, mem1) => ⟨row1, mem1, false, 1, []⟩
  | .retryViaRoute vendors persisted sendOk now uid =>
      (retryRoute vendors persisted sendOk now uid row mem).2
  | .onTheWay vendorRef =>
      ⟨(onTheWayRoute vendorRef row).2, mem, false, 1, []⟩
  | .pickupDone vendorRef now =>
      match pickupDoneRoute vendorRef now row mem with
      | (_, row1, mem1) => ⟨row1, mem1, false, 1, []⟩
  | .sweep vendors persisted sendOk now =>
      sweepOne vendors persisted sendOk now row mem

/-! ### Offer URL validation (dispatcher.js lines 82-95 and 185-198) -/

/-- The fields of a parsed WHATWG URL the validator inspects. -/
structure JsUrl where
  protocol : String
  hostname : String

/-- A vendor offer URL: the raw string plus the result of `new URL`
(`none` when parsing throws). -/
structure OfferUrl where
  raw : String
  parsed : Option JsUrl

/-- JavaScript String.prototype.toLowerCase, character by character. -/
def lowerString (s : String) : String := String.mk (s.data.map Char.toLower)

/-- validateOfferUrl (dispatcher.js lines 82-95): missing, unparsable,
non-http(s), or loopback-host URLs are rejected with a reason;
note the loopback check does not depend on the environment. -/
def validateOfferUrl (u : Option OfferUrl) : Bool × Option String :=
  match u with
  | none => (false, some "missing")
  | some url =>
      match url.parsed with
      | none => (false, some "invalid_url")
      | some p =>
          if ¬ (p.protocol = "http:" ∨ p.protocol = "https:") then
            (false, some "not_http")
          else
            let host := lowerString p.hostname
            if host = "localhost" ∨ host = "127.0.0.1" ∨ host = "::1" then
              (false, some "localhost")
            else (true, none)

/-- JavaScript String(url) for a possibly-null URL. -/
def rawStringOf : Option OfferUrl → String
  | some u => u.raw
  | none => "null"

/-- JavaScript String.prototype.includes with needle localhost. -/
def textHasLocalhost (s : String) : Bool :=
  decide (("localhost".data) <:+: s.data)

/-- The validation gate of sendOfferToVendor (dispatcher.js lines
185-198): when validation fails, the send still proceeds (with a
warning) only in non-production AND only when the raw URL text contains
the substring localhost; otherwise the send throws before any network
activity.  Returns true when the offer send fails at this gate. -/
def offerSendBlocked (production : Bool) (u : Option OfferUrl) : Bool :=
  if (validateOfferUrl u).1 then false
  else if !production && textHasLocalhost (rawStringOf u) then false
  else true

/-! ### ETA computation of GET /api/pickups/:id (src/unnamed/part_007
lines 194-274) -/

/-- The vendor enrichment object built by fetchVendorInfoByRef: each
coordinate is a number or null (`none`). -/
structure VendorInfo where
  latitude : Option ℝ
  longitude : Option ℝ

/-- The optional-chaining read vendor?.latitude: undefined when the
vendor object is absent, otherwise the (possibly null) field. -/
def vendorLatJs : Option VendorInfo → JsNum
  | none => .undef
  | some vi =>
      match vi.latitude with
      | none => .null
      | some x => .num x

/-- The optional-chaining read vendor?.longitude. -/
def vendorLngJs : Option VendorInfo → JsNum
  | none => .undef
  | some vi =>
      match vi.longitude with
      | none => .null
      | some x => .num x

/-- JavaScript Math.round over the reals: floor(x + 1/2). -/
noncomputable def jsRound (x : ℝ) : ℤ := ⌊x + 1 / 2⌋

/-- The etaMinutes computation of GET /api/pickups/:id (part_007 lines
224-244): when all four Number coercions are finite, the haversine
distance at 20 km/h is clamped to [5, 180] minutes and then rounded;
otherwise null.  Note Number(null) = 0 is finite. -/
noncomputable def etaMinutes (vendor : Option VendorInfo) (pLat pLng : JsNum) :
    Option ℤ :=
  match toNumber (vendorLatJs vendor), toNumber (vendorLngJs vendor),
      toNumber pLat, toNumber pLng with
  | some a, some b, some c, some d =>
      some (jsRound (max 5 (min 180 (haversineDistanceKm a b c d / 20 * 60))))
  | _, _, _, _ => none

/-- A coordinate that exists as an actual number (the reading of the
claim: null or absent is missing). -/
def numPart : JsNum → Option ℝ
  | .num x => some x
  | .null => none
  | .undef => none

/-- Modelled from the claim under review (and spec section 6): ETA is
`max(5, min(180, round(distance_km / 20 * 60)))` when both the vendors
and the pickups coordinates exist, and null when either coordinate pair
is missing.  Used only to compare against `etaMinutes`. -/
noncomputable def etaMinutesSpec (vendor : Option VendorInfo) (pLat pLng : JsNum) :
    Option ℤ :=
  match vendor with
  | none => none
  | some vi =>
      match vi.latitude, vi.longitude, numPart pLat, numPart pLng with
      | some a, some b, some c, some d =>
          some (max 5 (min 180 (jsRound (haversineDistanceKm a b c d / 20 * 60))))
      | _, _, _, _ => none

/-! ### Concrete fixtures -/

/-- A clean FINDING_VENDOR row with no outstanding offer. -/
def rowFV : PickupRow :=
  ⟨.FINDING_VENDOR, none, none, none, none, "c1", .null, .null⟩

/-- A cancelled row. -/
def rowCancelled : PickupRow :=
  ⟨.CANCELLED, none, none, some 500, none, "c1", .null, .null⟩

/-- A row whose offer was accepted. -/
def rowAssigned : PickupRow :=
  ⟨.ASSIGNED, some "v1", none, none, none, "c1", .null, .null⟩

/-- First test vendor (no stored coordinates). -/
def v1 : Vendor := ⟨"v1", none, none, some "http://v1.example/api/offer"⟩

/-- Second test vendor. -/
def v2 : Vendor := ⟨"v2", none, none, some "http://v2.example/api/offer"⟩

/-- A send oracle under which the offer to v1 fails and all others
succeed. -/
def sendFailsV1 : Vendor → Bool := fun v => v.vendorId != "v1"

/-! ### C1: what happens to the reservation when an offer send fails -/

/-- C1 counterexample: pickup in clean FINDING_VENDOR state, candidates
[v1, v2], the send to v1 fails.  The claim asserts the reserved offer
row is cleared (both fields null) before the next reservation attempt;
in fact the second reserve_offer attempt still observes
assigned_vendor_ref = v1 (reserveSeen), and the loop returns with the
failed vendor still reserved and no timer armed. -/
theorem c1_counterexample :
    (tryOfferNext sendFailsV1 1000 rowFV (some ⟨[v1, v2], 0, []⟩)).reserveSeen =
        [none, some "v1"] ∧
      (tryOfferNext sendFailsV1 1000 rowFV (some ⟨[v1, v2], 0, []⟩)).row.assignedVendorRef =
        some "v1" ∧
      (tryOfferNext sendFailsV1 1000 rowFV (some ⟨[v1, v2], 0, []⟩)).row.assignmentExpiresAt =
        some 121000 ∧
      (tryOfferNext sendFailsV1 1000 rowFV (some ⟨[v1, v2], 0, []⟩)).timerArmed = false := by
  decide

/-- C1 amended: when the offer send to the current candidate fails, the
engine does NOT clear the just-reserved offer (the pre-reserve clear
only removes expired offers); it increments the index and continues,
and the next reservation attempt observes the still-active reservation,
so the loop returns with the failed vendor still reserved, its
two-minute deadline intact, and no timer armed. -/
theorem c1_amended (sendOk : Vendor → Bool) (v w : Vendor) (now : Nat)
    (row : PickupRow) (hs : row.status = .FINDING_VENDOR)
    (hr : row.assignedVendorRef = none) (he : row.assignmentExpiresAt = none)
    (hv : sendOk v = false) :
    tryOfferNext sendOk now row (some ⟨[v, w], 0, []⟩) =
      ⟨{ row with assignedVendorRef := some v.vendorId,
                  assignmentExpiresAt := some (now + offerWindowMs),
                  status := .FINDING_VENDOR },
        some ⟨[v, w], 1, []⟩, false, 4, [none, some v.vendorId]⟩ := by
  obtain ⟨s, ar, ae, ca, co, cu, la, lo⟩ := row
  simp only at hs hr he
  subst hs; subst hr; subst he
  simp [tryOfferNext, tryOfferLoop, clearExpiredOfferIfAny, reserveOffer,
    isTerminalStatus, hasActiveOffer, hv, offerWindowMs]

/-- C1 amended witness at a concrete input. -/
theorem c1_amended_witness :
    tryOfferNext sendFailsV1 1000 rowFV (some ⟨[v1, v2], 0, []⟩) =
      ⟨{ rowFV with assignedVendorRef := some "v1",
                    assignmentExpiresAt := some (1000 + offerWindowMs),
                    status := .FINDING_VENDOR },
        some ⟨[v1, v2], 1, []⟩, false, 4, [none, some "v1"]⟩ :=
  c1_amended sendFailsV1 v1 v2 1000 rowFV rfl rfl rfl (by decide)

/-! ### C2: COMPLETED and CANCELLED are absorbing -/

/-- C2: for every operation of the system applied (sequentially) to a
committed pickup row whose status is COMPLETED or CANCELLED, the
resulting committed status is unchanged. -/
theorem c2_terminal_absorbing (op : Op) (row : PickupRow)
    (mem : Option DispatchMem) (h : row.status = .COMPLETED ∨ row.status = .CANCELLED) :
    (applyOp op row mem).row.status = row.status := by
  rcases h with hst | hst <;> cases op <;>
    simp [applyOp, dispatchPickup, handleOfferTimeout, confirmVendorAcceptance,
      handleVendorRejection, cancel_pickup, cancelRoute, retryRoute,
      onTheWayRoute, pickupDoneRoute, sweepOne, isTerminalStatus, hst] <;>
    split <;> simp [hst]

/-- C2 witness: a dispatch call on a cancelled row leaves it cancelled. -/
theorem c2_terminal_absorbing_witness :
    (applyOp (.dispatch [v1] [] [] sendFailsV1 1000) rowCancelled none).row.status =
      rowCancelled.status :=
  c2_terminal_absorbing (.dispatch [v1] [] [] sendFailsV1 1000) rowCancelled none
    (Or.inr rfl)

/-! ### C8: dispatch is a no-op while a valid offer is outstanding -/

/-- C8: when the row is FINDING_VENDOR with a non-null
assigned_vendor_ref and an unexpired deadline, dispatchPickup returns
before issuing any pickups UPDATE and before arming any timer, leaving
row and in-memory state untouched; hence a second dispatch in that
state equals a single one. -/
theorem c8_dispatch_noop (vendors : List Vendor) (skipRefs persisted : List String)
    (sendOk : Vendor → Bool) (now : Nat) (row : PickupRow)
    (mem : Option DispatchMem) (t : Nat) (hs : row.status = .FINDING_VENDOR)
    (hr : row.assignedVendorRef.isSome = true)
    (he : row.assignmentExpiresAt = some t) (ht : now < t) :
    dispatchPickup vendors skipRefs persisted sendOk now row mem =
      ⟨row, mem, false, 0, []⟩ := by
  have h1 : isTerminalStatus row.status = false := by simp [isTerminalStatus, hs]
  have h2 : hasActiveOffer now row = true := by
    simp [hasActiveOffer, hs, hr, he, ht]
  simp [dispatchPickup, h1, h2]

/-- C8 witness at a concrete input. -/
theorem c8_dispatch_noop_witness :
    dispatchPickup [v1, v2] [] [] sendFailsV1 1000
        { rowFV with assignedVendorRef := some "v1",
                     assignmentExpiresAt := some 121000 } none =
      ⟨{ rowFV with assignedVendorRef := some "v1",
                    assignmentExpiresAt := some 121000 }, none, false, 0, []⟩ :=
  c8_dispatch_noop [v1, v2] [] [] sendFailsV1 1000 _ none 121000 rfl rfl rfl
    (by norm_num)

/-! ### C3: acceptance is exactly the guarded CAS, with strict expiry -/

/-- C3: confirmVendorAcceptance succeeds (and then sets status ASSIGNED
and clears assignment_expires_at) iff the row is FINDING_VENDOR,
assigned to the calling vendor, and the non-null deadline has not
passed; in every other case it modifies nothing (row and in-memory
state unchanged, result null) and the accept route answers 409.  In
particular an offer whose deadline t < now has passed can never be
accepted. -/
theorem c3_confirm_acceptance (vendorRef : String) (now : Nat) (row : PickupRow)
    (mem : Option DispatchMem) :
    ((confirmVendorAcceptance vendorRef now row mem).1.isSome = true ↔
        row.status = .FINDING_VENDOR ∧ row.assignedVendorRef = some vendorRef ∧
          ∃ t, row.assignmentExpiresAt = some t ∧ now ≤ t)
    ∧ ((confirmVendorAcceptance vendorRef now row mem).1.isSome = true →
        (confirmVendorAcceptance vendorRef now row mem).2.1 =
          { row with status := .ASSIGNED, assignedVendorRef := some vendorRef,
                     assignmentExpiresAt := none })
    ∧ ((confirmVendorAcceptance vendorRef now row mem).1 = none →
        (confirmVendorAcceptance vendorRef now row mem).2.1 = row ∧
          (confirmVendorAcceptance vendorRef now row mem).2.2 = mem ∧
          (acceptRoute vendorRef now row mem).1 = 409)
    ∧ (∀ t, row.assignmentExpiresAt = some t → t < now →
        (confirmVendorAcceptance vendorRef now row mem).1 = none) := by
  obtain ⟨s, ar, ae, ca, co, cu, la, lo⟩ := row
  cases ae with
  | none =>
      simp [confirmVendorAcceptance, acceptRoute]
  | some t =>
      by_cases h1 : ar = some vendorRef <;>
        by_cases h2 : s = Status.FINDING_VENDOR <;>
          by_cases h3 : now ≤ t <;>
            simp [confirmVendorAcceptance, acceptRoute, h1, h2, h3, And.comm]

/-- C3 witness: a timely accept by the offered vendor succeeds. -/
theorem c3_confirm_acceptance_witness :
    (confirmVendorAcceptance "v1" 1000
        { rowFV with assignedVendorRef := some "v1",
                     assignmentExpiresAt := some 2000 } none).1.isSome = true :=
  (c3_confirm_acceptance "v1" 1000 _ none).1.mpr
    ⟨rfl, rfl, 2000, rfl, by norm_num⟩

/-! ### C4: callback handlers on a lost race -/

/-- C4 counterexample: a reject whose clearing CAS matches zero rows
(the pickup is already ASSIGNED, so the vendor is late) is answered
with HTTP 200, not 409. -/
theorem c4_counterexample :
    (rejectRoute [v2] [] sendFailsV1 1000 "v1" rowAssigned none).1 = 200 ∧
      (handleVendorRejection [v2] [] sendFailsV1 1000 "v1" rowAssigned none).cleared =
        false := by
  constructor <;> simp [rejectRoute, handleVendorRejection, rowAssigned]

/-- C4 amended: accept, on-the-way and pickup-done answer 409 when their
conditional update matches zero rows, but the reject route always
answers 200 (a late or mismatched reject is reported as ignored in the
body, not as a 409). -/
theorem c4_amended (vendors : List Vendor) (persisted : List String)
    (sendOk : Vendor → Bool) (vendorRef : String) (now : Nat) (row : PickupRow)
    (mem : Option DispatchMem) :
    (¬ (row.assignedVendorRef = some vendorRef ∧ row.status = .FINDING_VENDOR ∧
          ∃ t, row.assignmentExpiresAt = some t ∧ now ≤ t) →
        (acceptRoute vendorRef now row mem).1 = 409)
    ∧ (¬ (row.assignedVendorRef = some vendorRef ∧
          (row.status = .ASSIGNED ∨ row.status = .ON_THE_WAY)) →
        (onTheWayRoute vendorRef row).1 = 409)
    ∧ (¬ (row.assignedVendorRef = some vendorRef ∧
          (row.status = .ASSIGNED ∨ row.status = .ON_THE_WAY)) →
        (pickupDoneRoute vendorRef now row mem).1 = 409)
    ∧ (rejectRoute vendors persisted sendOk now vendorRef row mem).1 = 200 := by
  refine ⟨?_, ?_, ?_, ?_⟩
  · intro h
    obtain ⟨s, ar, ae, ca, co, cu, la, lo⟩ := row
    simp only [acceptRoute, confirmVendorAcceptance]
    cases ae with
    | none => simp
    | some t =>
        by_cases h1 : ar = some vendorRef <;>
          by_cases h2 : s = Status.FINDING_VENDOR <;>
            by_cases h3 : now ≤ t <;> simp [h1, h2, h3] at h ⊢
  · intro h; simp [onTheWayRoute, h]
  · intro h; simp [pickupDoneRoute, h]
  · simp [rejectRoute]

/-- C4 amended witness: a late accept on an already-cancelled pickup is
answered 409, and the matching reject is answered 200. -/
theorem c4_amended_witness :
    (acceptRoute "v1" 1000 rowCancelled none).1 = 409 ∧
      (rejectRoute [v2] [] sendFailsV1 1000 "v1" rowCancelled none).1 = 200 :=
  ⟨(c4_amended [v2] [] sendFailsV1 "v1" 1000 rowCancelled none).1 (by simp [rowCancelled]),
    (c4_amended [v2] [] sendFailsV1 "v1" 1000 rowCancelled none).2.2.2⟩

/-! ### C7: customer cancel is NOT fully idempotent -/

/-- A fresh REQUESTED row. -/
def rowReq : PickupRow := ⟨.REQUESTED, none, none, none, none, "c1", .null, .null⟩

/-- C7 counterexample: the cancel_pickup WHERE clause only excludes
COMPLETED, so a second cancel at a later time matches the CANCELLED row
again and re-stamps cancelled_at; the row is not left unchanged. -/
theorem c7_counterexample :
    (cancel_pickup "c1" 2000 (cancel_pickup "c1" 1000 rowReq)).cancelledAt =
        some 2000 ∧
      (cancel_pickup "c1" 1000 rowReq).cancelledAt = some 1000 ∧
      cancel_pickup "c1" 2000 (cancel_pickup "c1" 1000 rowReq) ≠
        cancel_pickup "c1" 1000 rowReq := by
  refine ⟨by simp [cancel_pickup, rowReq], by simp [cancel_pickup, rowReq], fun h => ?_⟩
  have h2 := congrArg PickupRow.cancelledAt h
  simp [cancel_pickup, rowReq] at h2

/-- C7 amended: after a first successful cancel, a second cancel by the
same customer leaves every field unchanged except cancelled_at, which
is re-stamped with the second calls timestamp. -/
theorem c7_amended (uid : String) (row : PickupRow) (now1 now2 : Nat)
    (hc : row.customerId = uid) (hs : row.status ≠ .COMPLETED) :
    cancel_pickup uid now2 (cancel_pickup uid now1 row) =
      { cancel_pickup uid now1 row with cancelledAt := some now2 } := by
  simp [cancel_pickup, hc, hs]

/-- C7 amended witness. -/
theorem c7_amended_witness :
    cancel_pickup "c1" 2000 (cancel_pickup "c1" 1000 rowReq) =
      { cancel_pickup "c1" 1000 rowReq with cancelledAt := some 2000 } :=
  c7_amended "c1" rowReq 1000 2000 rfl (by decide)

/-! ### C5: loopback offer URLs -/

/-- A loopback URL spelled with the raw IPv4 address. -/
def url127 : OfferUrl :=
  ⟨"http://127.0.0.1:3000/api/offer", some ⟨"http:", "127.0.0.1"⟩⟩

/-- A loopback URL spelled with the hostname localhost. -/
def urlLocalhost : OfferUrl :=
  ⟨"http://localhost:3000/api/offer", some ⟨"http:", "localhost"⟩⟩

/-- C5 counterexample: in a NON-production environment, an offer URL
with the loopback host 127.0.0.1 still makes the send fail, because the
development bypass tests the raw URL text for the substring localhost,
which this URL does not contain. -/
theorem c5_counterexample : offerSendBlocked false (some url127) = true := by
  decide

/-- C5 amended: in production every loopback host (localhost, 127.0.0.1,
::1) fails validation and blocks the send; in non-production a
validation-failing URL is permitted (send attempted, warning logged)
if and only if its raw text contains the substring localhost — so
127.0.0.1 and ::1 URLs are still blocked there. -/
theorem c5_amended :
    (∀ u : OfferUrl, ∀ p : JsUrl, u.parsed = some p →
        (p.protocol = "http:" ∨ p.protocol = "https:") →
        (lowerString p.hostname = "localhost" ∨ lowerString p.hostname = "127.0.0.1" ∨
          lowerString p.hostname = "::1") →
        (validateOfferUrl (some u)).1 = false ∧
          offerSendBlocked true (some u) = true)
    ∧ (∀ u : Option OfferUrl,
        offerSendBlocked false u =
          (!(validateOfferUrl u).1 && !textHasLocalhost (rawStringOf u))) := by
  constructor
  · intro u p hp hproto hhost
    have hv : (validateOfferUrl (some u)).1 = false := by
      simp [validateOfferUrl, hp, hproto, hhost]
    exact ⟨hv, by simp [offerSendBlocked, hv]⟩
  · intro u
    unfold offerSendBlocked
    cases h : (validateOfferUrl u).1 <;> simp [h]

/-- C5 amended witness: a localhost URL is blocked in production. -/
theorem c5_amended_witness :
    offerSendBlocked true (some urlLocalhost) = true :=
  (c5_amended.1 urlLocalhost ⟨"http:", "localhost"⟩ rfl (Or.inl rfl)
    (Or.inl (by decide))).2

/-! ### Haversine evaluation lemmas -/

/-- The distance from a point to itself is zero. -/
theorem haversine_self (a b : ℝ) : haversineDistanceKm a b a b = 0 := by
  have hz : toRad (a - a) = 0 := by simp [toRad]
  have hz2 : toRad (b - b) = 0 := by simp [toRad]
  simp only [haversineDistanceKm, hz, hz2]
  norm_num [atan2, Real.arctan_zero]

/-- The distance from the north pole (at longitude 90) to the point the
dispatcher substitutes for missing vendor coordinates, (0, 0): a
quarter great circle. -/
theorem haversine_pole_origin :
    haversineDistanceKm 90 90 0 0 = 6371 * (Real.pi / 2) := by
  have h1 : toRad (0 - 90) / 2 = -(Real.pi / 4) := by
    simp only [toRad]; ring
  have h2 : toRad (90 : ℝ) = Real.pi / 2 := by
    simp only [toRad]; ring
  have hsin : Real.sin (-(Real.pi / 4)) ^ 2 = 1 / 2 := by
    rw [Real.sin_neg, neg_pow, Real.sin_pi_div_four]
    rw [div_pow, Real.sq_sqrt] <;> norm_num
  simp only [haversineDistanceKm, h1, h2, hsin, Real.cos_pi_div_two, zero_mul]
  norm_num
  have hpos : 0 < (Real.sqrt 2)⁻¹ := by positivity
  rw [atan2, if_pos hpos, div_self (ne_of_gt hpos), Real.arctan_one]
  ring

/-- The distance from the north pole to the south pole (half great
circle). -/
theorem haversine_pole_antipode :
    haversineDistanceKm 90 90 (-90) 90 = 6371 * Real.pi := by
  have h1 : toRad (-90 - 90) / 2 = -(Real.pi / 2) := by
    simp only [toRad]; ring
  have h2 : toRad (90 - 90) = 0 := by simp [toRad]
  have hsin : Real.sin (-(Real.pi / 2)) ^ 2 = 1 := by
    rw [Real.sin_neg, neg_pow, Real.sin_pi_div_two]; norm_num
  simp only [haversineDistanceKm, h1, h2, hsin]
  norm_num
  rw [atan2]
  norm_num [Real.pi_pos]
  ring

/-! ### C6: ranking of vendors with missing coordinates -/

/-- A far-away vendor with stored coordinates (south pole at
longitude 90). -/
def vendorFar : Vendor := ⟨"B", some (-90), some 90, some "http://b.example/api/offer"⟩

instance : IsTotal (Vendor × ℝ) distLE := ⟨fun a b => le_total a.2 b.2⟩

instance : IsTrans (Vendor × ℝ) distLE := ⟨fun _ _ _ => le_trans⟩

/-- C6 counterexample: pickup at (90, 90); vendor B has coordinates
(-90, 90) and vendor v1 has none.  The claim says v1 must rank after B;
in fact v1 is treated as located at (0, 0), a quarter circle from the
pickup, while B is half a circle away, so the ranking puts the
coordinate-less vendor FIRST and its distance is not the
MAX_SAFE_INTEGER sentinel. -/
theorem c6_counterexample :
    rankVendors (.num 90) (.num 90) [vendorFar, v1] = [v1, vendorFar] ∧
      vendorDistanceKm (some 90) (some 90) v1 ≠ maxSafeInteger := by
  have hpi := Real.pi_pos
  have hA : vendorDistanceKm (some 90) (some 90) v1 = 6371 * (Real.pi / 2) := by
    simp [vendorDistanceKm, vendorCoordOf, v1, haversine_pole_origin]
  have hB : vendorDistanceKm (some 90) (some 90) vendorFar = 6371 * Real.pi := by
    simp [vendorDistanceKm, vendorCoordOf, vendorFar, haversine_pole_antipode]
  have hnot : ¬ distLE (vendorFar, vendorDistanceKm (some 90) (some 90) vendorFar)
      (v1, vendorDistanceKm (some 90) (some 90) v1) := by
    simp only [distLE, hA, hB, not_le]
    nlinarith
  constructor
  · have hpx : pickupCoordOf (.num 90) = some 90 := by norm_num [pickupCoordOf]
    simp only [rankVendors, hpx, List.map_cons, List.map_nil, List.insertionSort,
      List.orderedInsert, if_neg hnot, List.orderedInsert_nil]
  · rw [hA]
    simp only [maxSafeInteger]
    nlinarith [Real.pi_lt_d2]

/-- C6 amended: when the pickup has usable (nonzero) coordinates, a
vendor with no stored coordinates is treated as located at (0, 0) — its
ranking key is the haversine distance from the pickup to (0, 0), not an
infinite sentinel — and the ranked list is (stably) ascending in the
per-vendor distance key. -/
theorem c6_amended (pLat pLng : ℝ) (hx : pLat ≠ 0) (hy : pLng ≠ 0) (v : Vendor)
    (hla : v.lastLatitude = none) (hlo : v.lastLongitude = none)
    (vendors : List Vendor) :
    vendorDistanceKm (pickupCoordOf (.num pLat)) (pickupCoordOf (.num pLng)) v =
        haversineDistanceKm pLat pLng 0 0
    ∧ List.Pairwise
        (fun u w =>
          vendorDistanceKm (pickupCoordOf (.num pLat)) (pickupCoordOf (.num pLng)) u ≤
            vendorDistanceKm (pickupCoordOf (.num pLat)) (pickupCoordOf (.num pLng)) w)
        (rankVendors (.num pLat) (.num pLng) vendors) := by
  have hpx : pickupCoordOf (.num pLat) = some pLat := by simp [pickupCoordOf, hx]
  have hpy : pickupCoordOf (.num pLng) = some pLng := by simp [pickupCoordOf, hy]
  constructor
  · rw [hpx, hpy]
    simp [vendorDistanceKm, vendorCoordOf, hla, hlo]
  · set dist := fun u =>
      vendorDistanceKm (pickupCoordOf (.num pLat)) (pickupCoordOf (.num pLng)) u with hd
    have hsorted := List.sorted_insertionSort distLE
      (vendors.map fun u => (u, dist u))
    have hmem : ∀ x ∈ List.insertionSort distLE (vendors.map fun u => (u, dist u)),
        x.2 = dist x.1 := by
      intro x hxmem
      rw [List.mem_insertionSort] at hxmem
      obtain ⟨u, _, rfl⟩ := List.mem_map.mp hxmem
      rfl
    have hpair : List.Pairwise (fun a b : Vendor × ℝ => dist a.1 ≤ dist b.1)
        (List.insertionSort distLE (vendors.map fun u => (u, dist u))) := by
      refine List.Pairwise.imp_of_mem ?_ hsorted
      intro a b ha hb hab
      rw [← hmem a ha, ← hmem b hb]
      exact hab
    have := hpair.map Prod.fst (S := fun u w => dist u ≤ dist w) fun a b h => h
    simpa [rankVendors, hd]

/-- C6 amended witness: the concrete coordinate-less vendor v1 gets the
distance from pickup (90, 90) to (0, 0). -/
theorem c6_amended_witness :
    vendorDistanceKm (pickupCoordOf (.num 90)) (pickupCoordOf (.num 90)) v1 =
      haversineDistanceKm 90 90 0 0 :=
  (c6_amended 90 90 (by norm_num) (by norm_num) v1 rfl rfl []).1

/-! ### C10: a zero or missing pickup coordinate disables the ranking -/

/-- A pairwise relation that holds unconditionally holds of every
list. -/
theorem pairwise_of_total {α : Type} {R : α → α → Prop} (hR : ∀ a b, R a b) :
    ∀ l : List α, l.Pairwise R
  | [] => .nil
  | _ :: l => .cons (fun b _ => hR _ b) (pairwise_of_total hR l)

/-- C10: when the stored pickup latitude or longitude is exactly 0, SQL
NULL, or absent, the truthiness chain yields no usable coordinate, so
every vendor receives the sentinel distance MAX_SAFE_INTEGER and the
stable sort leaves the vendor directory listing order unchanged. -/
theorem c10_zero_coordinate (pLat pLng : JsNum) (vendors : List Vendor)
    (h : pLat = .num 0 ∨ pLat = .null ∨ pLat = .undef ∨
      pLng = .num 0 ∨ pLng = .null ∨ pLng = .undef) :
    (∀ v ∈ vendors,
        vendorDistanceKm (pickupCoordOf pLat) (pickupCoordOf pLng) v =
          maxSafeInteger)
    ∧ rankVendors pLat pLng vendors = vendors := by
  have hnone : pickupCoordOf pLat = none ∨ pickupCoordOf pLng = none := by
    rcases h with h | h | h | h | h | h <;> subst h <;> simp [pickupCoordOf]
  have hdist : ∀ v, vendorDistanceKm (pickupCoordOf pLat) (pickupCoordOf pLng) v =
      maxSafeInteger := by
    intro v
    rcases hnone with h1 | h1 <;> rw [h1] <;>
      [skip; cases pickupCoordOf pLat] <;> simp [vendorDistanceKm]
  refine ⟨fun v _ => hdist v, ?_⟩
  have hmapeq : (vendors.map fun v =>
      (v, vendorDistanceKm (pickupCoordOf pLat) (pickupCoordOf pLng) v)) =
      vendors.map fun v => (v, maxSafeInteger) :=
    List.map_congr_left fun v _ => by rw [hdist v]
  have hsorted : List.Sorted distLE (vendors.map fun v => (v, maxSafeInteger)) := by
    refine List.Pairwise.map _ ?_ (pairwise_of_total (fun _ _ => trivial) vendors)
    intro a b _
    exact le_refl maxSafeInteger
  simp only [rankVendors, hmapeq, hsorted.insertionSort_eq, List.map_map]
  exact List.map_id vendors

/-- C10 witness: a pickup stored at latitude 0 yields the listing order
and sentinel distances. -/
theorem c10_zero_coordinate_witness :
    vendorDistanceKm (pickupCoordOf (.num 0)) (pickupCoordOf (.num 7)) vendorFar =
        maxSafeInteger ∧
      rankVendors (.num 0) (.num 7) [vendorFar, v1] = [vendorFar, v1] :=
  ⟨(c10_zero_coordinate (.num 0) (.num 7) [vendorFar, v1] (Or.inl rfl)).1 vendorFar
      (by simp),
    (c10_zero_coordinate (.num 0) (.num 7) [vendorFar, v1] (Or.inl rfl)).2⟩

/-! ### C9: ETA of the status-polling route -/

/-- Rounding after clamping to the integer bounds 5 and 180 equals
clamping after rounding: Math.round is monotone and fixes integers. -/
theorem jsRound_clamp (m : ℝ) :
    jsRound (max 5 (min 180 m)) = max 5 (min 180 (jsRound m)) := by
  unfold jsRound
  have h55 : ⌊(5 : ℝ) + 1 / 2⌋ = 5 := by
    rw [Int.floor_eq_iff] <;> norm_num
  have h1805 : ⌊(180 : ℝ) + 1 / 2⌋ = 180 := by
    rw [Int.floor_eq_iff] <;> norm_num
  rcases le_total m 5 with h5 | h5
  · have hmin : min (180 : ℝ) m = m := min_eq_right (by linarith)
    have hmax : max (5 : ℝ) m = 5 := max_eq_left h5
    have hr : ⌊m + 1 / 2⌋ ≤ 5 := h55 ▸ Int.floor_le_floor (by linarith)
    rw [hmin, hmax, h55, min_eq_right (le_trans hr (by norm_num)), max_eq_left hr]
  · rcases le_total m 180 with hm | hm
    · have hmin : min (180 : ℝ) m = m := min_eq_right hm
      have hmax : max (5 : ℝ) m = m := max_eq_right h5
      have hr1 : 5 ≤ ⌊m + 1 / 2⌋ := h55 ▸ Int.floor_le_floor (by linarith)
      have hr2 : ⌊m + 1 / 2⌋ ≤ 180 := h1805 ▸ Int.floor_le_floor (by linarith)
      rw [hmin, hmax, min_eq_right hr2, max_eq_right hr1]
    · have hmin : min (180 : ℝ) m = 180 := min_eq_left hm
      have hr : 180 ≤ ⌊m + 1 / 2⌋ := h1805 ▸ Int.floor_le_floor (by linarith)
      rw [hmin, max_eq_right (by norm_num : (5 : ℝ) ≤ 180), h1805,
        min_eq_left hr, max_eq_right (by norm_num : (5 : ℤ) ≤ 180)]

/-- A vendor row whose stored latitude is SQL NULL. -/
def viNullLat : VendorInfo := ⟨none, some 50⟩

/-- A vendor row with both coordinates present. -/
def viAt34 : VendorInfo := ⟨some 3, some 4⟩

/-- C9 counterexample: the assigned vendor row exists but its latitude
is SQL NULL — a missing coordinate.  The claim formula
(etaMinutesSpec) yields null, but the route computes an ETA anyway,
because Number(null) = 0 passes the finiteness check and the vendor is
treated as sitting at latitude 0. -/
theorem c9_counterexample :
    (etaMinutes (some viNullLat) (.num 10) (.num 10)).isSome = true ∧
      etaMinutesSpec (some viNullLat) (.num 10) (.num 10) = none := by
  constructor <;>
    simp [etaMinutes, etaMinutesSpec, viNullLat, toNumber, vendorLatJs,
      vendorLngJs, numPart]

/-- C9 amended: whenever all four Number coercions are finite — which
includes SQL-NULL coordinates, coerced to 0 — the route returns exactly
the claimed formula max(5, min(180, round(d / 20 * 60))) (the rounding
may equivalently be applied inside or outside the clamp); and the ETA
is null exactly when some coercion is NaN (an absent vendor object or
absent field), not merely a null field. -/
theorem c9_amended (vendor : Option VendorInfo) (pLat pLng : JsNum) :
    (∀ a b c d, toNumber (vendorLatJs vendor) = some a →
        toNumber (vendorLngJs vendor) = some b →
        toNumber pLat = some c → toNumber pLng = some d →
        etaMinutes vendor pLat pLng =
          some (max 5 (min 180 (jsRound (haversineDistanceKm a b c d / 20 * 60)))))
    ∧ (etaMinutes vendor pLat pLng = none ↔
        toNumber (vendorLatJs vendor) = none ∨
          toNumber (vendorLngJs vendor) = none ∨
          toNumber pLat = none ∨ toNumber pLng = none) := by
  constructor
  · intro a b c dd ha hb hc hd
    simp [etaMinutes, ha, hb, hc, hd, jsRound_clamp]
  · rcases h1 : toNumber (vendorLatJs vendor) with _ | a <;>
      rcases h2 : toNumber (vendorLngJs vendor) with _ | b <;>
        rcases h3 : toNumber pLat with _ | c <;>
          rcases h4 : toNumber pLng with _ | d <;>
            simp [etaMinutes, h1, h2, h3, h4]

/-- C9 amended witness: a vendor co-located with the pickup gives the
clamped minimum of 5 minutes. -/
theorem c9_amended_witness :
    etaMinutes (some viAt34) (.num 3) (.num 4) = some 5 := by
  have h := (c9_amended (some viAt34) (.num 3) (.num 4)).1 3 4 3 4
    (by simp [vendorLatJs, viAt34, toNumber])
    (by simp [vendorLngJs, viAt34, toNumber])
    (by simp [toNumber]) (by simp [toNumber])
  have h0 : jsRound 0 = 0 := by
    unfold jsRound
    rw [Int.floor_eq_iff] <;> norm_num
  rw [h, haversine_self]
  norm_num [h0]

end ScrapCo
